import Mathlib

/-!
Verification of `src/lib/vector/Vlib/open_ogr.c` (GRASS vector library,
OGR open paths) against its natural-language specification.

The file is a shallow embedding: the fidx byte stream is a `List Nat` of
bytes, the portable integer codec is modelled from the spec (the codec
itself lives outside the given sources), and the three C functions
`V1_open_old_ogr`, `V2_open_old_ogr` and `V1_open_new_ogr` are translated
into pure Lean functions returning explicit result records that also track
the observable side effects (warnings, fatal errors, handle open/close
state) the claims talk about.
-/

/-- Interpret a byte (0..255) as a signed C `char` value, as the version
bytes of the fidx header are on the common platforms where `char` is
signed. -/
def toSigned8 (b : Nat) : Int :=
  if b < 128 then (b : Int) else (b : Int) - 256

/-- Interpret a 32-bit unsigned decoding result as a signed C `int`
(two's complement). -/
def toSigned32 (d : Nat) : Int :=
  if d < 2147483648 then (d : Int) else (d : Int) - 4294967296

/-- Modelled from the spec: the portable binary codec's 4-byte integer
encoding. The byte-order tag `bo` stored in the stream governs decoding;
tag 0 is the little-endian convention, any other tag the big-endian one.
(The codec `dig__fwrite_port_*` / `dig__fread_port_*` is part of the
repository but not among the given sources.) -/
def enc4 (bo : Nat) (d : Nat) : List Nat :=
  if bo = 0 then [d % 256, d / 256 % 256, d / 65536 % 256, d / 16777216 % 256]
  else [d / 16777216 % 256, d / 65536 % 256, d / 256 % 256, d % 256]

/-- Modelled from the spec: 4-byte integer decoding under byte-order tag
`bo`, inverse of `enc4`. -/
def dec4 (bo : Nat) (bs : List Nat) : Nat :=
  if bo = 0 then
    bs.getD 3 0 * 16777216 + bs.getD 2 0 * 65536 + bs.getD 1 0 * 256 + bs.getD 0 0
  else
    bs.getD 0 0 * 16777216 + bs.getD 1 0 * 65536 + bs.getD 2 0 * 256 + bs.getD 3 0

/-- Encode a signed 32-bit C `int` (two's complement) under tag `bo`. -/
def encI4 (bo : Nat) (v : Int) : List Nat :=
  enc4 bo (v % 4294967296).toNat

/-- Encode a list of signed 32-bit ints back to back. -/
def encList (bo : Nat) : List Int → List Nat
  | [] => []
  | v :: vs => encI4 bo v ++ encList bo vs

/-- Read `n` raw bytes at byte position `pos` of the stream. Modelled from
the spec: a short read (fewer than `n` bytes available) is signalled
distinctly (`none`); the codec is all-or-nothing, as its callers treat a
short read as failure of the whole read. -/
def readN (data : List Nat) (pos n : Nat) : Option (List Nat) :=
  if pos + n ≤ data.length then some ((data.drop pos).take n) else none

/-- Modelled from the spec: read one portable 4-byte signed integer at
position `pos` (both `dig__fread_port_I` of one `int` and
`dig__fread_port_L` of one portable long, which is also 4 bytes on disk). -/
def readI1 (bo : Nat) (data : List Nat) (pos : Nat) : Option Int :=
  (readN data pos 4).map (fun bs => toSigned32 (dec4 bo bs))

/-- Modelled from the spec: read `cnt` portable 4-byte signed integers
starting at `pos`; any short read fails the whole read (all-or-nothing),
a request for 0 values trivially succeeds. -/
def readIs (bo : Nat) (data : List Nat) : Nat → Nat → Option (List Int)
  | _, 0 => some []
  | pos, Nat.succ cnt =>
    match readI1 bo data pos with
    | none => none
    | some v => (readIs bo data (pos + 4) cnt).map (fun vs => v :: vs)

/-- The C cast of the `int` count to the `size_t` element count handed to
the codec: negative ints wrap to huge unsigned values. -/
def intToCnt (k : Int) : Nat :=
  if k < 0 then (18446744073709551616 + k).toNat else k.toNat

/-- Outcome of the version check of `V2_open_old_ogr`
(open_ogr.c:157-167). -/
inductive VersionDecision
  | acceptSilent
  | acceptWarn
  | rejectFatal
deriving DecidableEq

/-- Version acceptance logic of `V2_open_old_ogr` (open_ogr.c:157-167),
on the raw header bytes: `if (Version_Major > 5 || Version_Minor > 0)`
then `if (Back_Major > 5 || Back_Minor > 0)` fatal else warning. The
reader's supported version constants are the literals 5 and 0. -/
def versionAccept (b0 b1 b2 b3 : Nat) : VersionDecision :=
  if toSigned8 b0 > 5 ∨ toSigned8 b1 > 0 then
    if toSigned8 b2 > 5 ∨ toSigned8 b3 > 0 then VersionDecision.rejectFatal
    else VersionDecision.acceptWarn
  else VersionDecision.acceptSilent

/-- Observable outcome of `V2_open_old_ogr`: return value, diagnostics
emitted, the offset-table fields of `Map->fInfo.ogr` that the function
writes, and the fidx file-handle state. `offsets = none` means the offset
array was never filled with decoded values. `msgVersions` lists the
version pairs interpolated into the fatal error message. -/
structure V2Result where
  ret : Int
  fatal : Bool
  msgVersions : List (Int × Int)
  warnedMissing : Bool
  warnedVersion : Bool
  offset_num : Option Int
  offsets : Option (List Int)
  next_line : Option Int
  fileOpened : Bool
  fileClosed : Bool
deriving DecidableEq

/-- All-fields-default result record. -/
def V2Result.base : V2Result :=
  { ret := -1, fatal := false, msgVersions := [], warnedMissing := false,
    warnedVersion := false, offset_num := none, offsets := none,
    next_line := none, fileOpened := false, fileClosed := false }

/-- Body of `V2_open_old_ogr` after the header was read and the version
accepted (open_ogr.c:169-200): read the 4-byte length at position 5, seek
there (`G_fseek`, which on a negative target fails and leaves the
position, then 9, unchanged), read the record count, allocate, read that
many offsets, and only on full success `fclose` the file, set
`next_line = 1` and return 0; every failing read returns -1 without
closing the file. `w` records whether the version warning was emitted. -/
def v2Body (w : Bool) (bo : Nat) (data : List Nat) : V2Result :=
  match readI1 bo data 5 with
  | none => { V2Result.base with ret := -1, warnedVersion := w, fileOpened := true }
  | some len =>
    let pos := if len < 0 then 9 else len.toNat
    match readI1 bo data pos with
    | none => { V2Result.base with ret := -1, warnedVersion := w, fileOpened := true }
    | some k =>
      match readIs bo data (pos + 4) (intToCnt k) with
      | none =>
        { V2Result.base with
          ret := -1
          warnedVersion := w
          fileOpened := true
          offset_num := some k }
      | some vs =>
        { V2Result.base with
          ret := 0
          warnedVersion := w
          fileOpened := true
          fileClosed := true
          offset_num := some k
          offsets := some vs
          next_line := some 1 }

/-- `V2_open_old_ogr` (open_ogr.c:127-201). `fidx = none` models
`G_fopen_old` failing (no fidx file): warning and -1. Otherwise the
5-byte header is read (short read returns -1 with the file left open),
the version check runs (fatal rejection carries the file's version pair
in the message and happens before any table parsing), and on acceptance
the body runs. -/
def V2_open_old_ogr (fidx : Option (List Nat)) : V2Result :=
  match fidx with
  | none => { V2Result.base with ret := -1, warnedMissing := true }
  | some data =>
    match readN data 0 5 with
    | none => { V2Result.base with ret := -1, fileOpened := true }
    | some hdr =>
      let b0 := hdr.getD 0 0
      let b1 := hdr.getD 1 0
      let b2 := hdr.getD 2 0
      let b3 := hdr.getD 3 0
      let bo := hdr.getD 4 0
      match versionAccept b0 b1 b2 b3 with
      | VersionDecision.rejectFatal =>
        { V2Result.base with
          ret := -1
          fatal := true
          msgVersions := [(toSigned8 b0, toSigned8 b1)]
          fileOpened := true }
      | VersionDecision.acceptWarn => v2Body true bo data
      | VersionDecision.acceptSilent => v2Body false bo data

/-- Modelled from the spec: the fidx writer (part of the repository but
not among the given sources) emits the 5-byte header carrying the writer
version 5.0, the backward-compatibility floor 5.0 and the byte-order tag,
then the 4-byte byte-position of the table (9, immediately after this
field), then the count and the offsets, in the layout the reader of
open_ogr.c consumes. -/
def write_fidx (bo : Nat) (offsets : List Int) : List Nat :=
  [5, 0, 5, 0, bo] ++ encI4 bo 9 ++ encI4 bo (offsets.length : Int) ++ encList bo offsets

/-- Version-pair order used by the claims: (wMaj, wMin) is not newer than
(rMaj, rMin). Stated from the spec's words for comparison with the code's
check. -/
def specVersionLE (wMaj wMin rMaj rMin : Int) : Prop :=
  wMaj < rMaj ∨ (wMaj = rMaj ∧ wMin ≤ rMin)

instance (a b c d : Int) : Decidable (specVersionLE a b c d) := by
  unfold specVersionLE; infer_instance

/-! ### Codec lemmas -/

theorem enc4_length (bo d : Nat) : (enc4 bo d).length = 4 := by
  unfold enc4; split <;> rfl

theorem encI4_length (bo : Nat) (v : Int) : (encI4 bo v).length = 4 := by
  unfold encI4; exact enc4_length bo _

theorem encList_length (bo : Nat) (vs : List Int) :
    (encList bo vs).length = 4 * vs.length := by
  induction vs with
  | nil => rfl
  | cons v vs ih =>
    simp [encList, encI4_length, ih]
    omega

theorem dec4_enc4 (bo d : Nat) (h : d < 4294967296) :
    dec4 bo (enc4 bo d) = d := by
  unfold dec4 enc4
  split <;> simp [List.getD] <;> omega

theorem readN_at (pre mid suf : List Nat) :
    readN (pre ++ (mid ++ suf)) pre.length mid.length = some mid := by
  unfold readN
  rw [if_pos (by simp)]
  rw [List.drop_left, List.take_left]

theorem readN_none (data : List Nat) (pos n : Nat) (h : data.length < pos + n) :
    readN data pos n = none := by
  unfold readN
  rw [if_neg (by omega)]

theorem readI1_at (bo : Nat) (pre suf : List Nat) (v : Int)
    (h0 : 0 ≤ v) (h1 : v < 2147483648) :
    readI1 bo (pre ++ (encI4 bo v ++ suf)) pre.length = some v := by
  have h4 : (encI4 bo v).length = 4 := encI4_length bo v
  have hmod : v % 4294967296 = v := Int.emod_eq_of_lt h0 (by omega)
  have htn : ((v % 4294967296).toNat : Int) = v := by rw [hmod]; exact Int.toNat_of_nonneg h0
  have hlt : (v % 4294967296).toNat < 4294967296 := by omega
  unfold readI1
  rw [show (4 : Nat) = (encI4 bo v).length from h4.symm, readN_at]
  simp only [Option.map_some']
  unfold encI4
  rw [dec4_enc4 bo _ hlt]
  unfold toSigned32
  rw [if_pos (by omega)]
  simp [htn]

theorem readI1_none (bo : Nat) (data : List Nat) (pos : Nat)
    (h : data.length < pos + 4) : readI1 bo data pos = none := by
  unfold readI1
  rw [readN_none data pos 4 h]
  rfl

theorem readIs_encList (bo : Nat) (vs : List Int) :
    ∀ (pre suf : List Nat), (∀ v ∈ vs, 0 ≤ v ∧ v < 2147483648) →
    readIs bo (pre ++ (encList bo vs ++ suf)) pre.length vs.length = some vs := by
  induction vs with
  | nil => intro pre suf _; rfl
  | cons v vs ih =>
    intro pre suf hv
    have hva := hv v (List.mem_cons_self v vs)
    have key := readI1_at bo pre (encList bo vs ++ suf) v hva.1 hva.2
    have hstream : encList bo (v :: vs) ++ suf = encI4 bo v ++ (encList bo vs ++ suf) := by
      simp [encList]
    have ih' := ih (pre ++ encI4 bo v) suf (fun x hx => hv x (List.mem_cons_of_mem v hx))
    have hassoc : pre ++ encI4 bo v ++ (encList bo vs ++ suf) =
        pre ++ (encI4 bo v ++ (encList bo vs ++ suf)) := by
      simp
    have hlen : (pre ++ encI4 bo v).length = pre.length + 4 := by
      simp [encI4_length]
    rw [hassoc, hlen] at ih'
    rw [hstream]
    simp [readIs, key, ih']

theorem readIs_short (bo : Nat) :
    ∀ (cnt pos : Nat) (data : List Nat), 0 < cnt →
    data.length < pos + 4 * cnt → readIs bo data pos cnt = none := by
  intro cnt
  induction cnt with
  | zero => intro pos data h; omega
  | succ n ih =>
    intro pos data _ hlen
    by_cases hsh : data.length < pos + 4
    · simp [readIs, readI1_none bo data pos hsh]
    · rcases Nat.eq_zero_or_pos n with hn | hn
      · omega
      · have hrec := ih (pos + 4) data hn (by omega)
        cases h1 : readI1 bo data pos with
        | none => simp [readIs, h1]
        | some v => simp [readIs, h1, hrec]

theorem intToCnt_ofNat (n : Nat) : intToCnt (n : Int) = n := by
  unfold intToCnt
  rw [if_neg (by omega)]
  simp

/-! ### Structure of `v2Body` outcomes -/

theorem v2Body_fields (w : Bool) (bo : Nat) (data : List Nat) :
    (v2Body w bo data).fatal = false ∧
    (v2Body w bo data).msgVersions = [] ∧
    (v2Body w bo data).warnedMissing = false ∧
    (v2Body w bo data).warnedVersion = w ∧
    (v2Body w bo data).fileOpened = true ∧
    ((v2Body w bo data).fileClosed = true ↔ (v2Body w bo data).ret = 0) ∧
    ((v2Body w bo data).ret = -1 →
      (v2Body w bo data).offsets = none ∧ (v2Body w bo data).next_line = none) ∧
    ((v2Body w bo data).ret = 0 ∨ (v2Body w bo data).ret = -1) := by
  cases h1 : readI1 bo data 5 with
  | none => simp [v2Body, h1, V2Result.base]
  | some len =>
    cases h2 : readI1 bo data (if len < 0 then 9 else len.toNat) with
    | none => simp [v2Body, h1, h2, V2Result.base]
    | some k =>
      cases h3 : readIs bo data ((if len < 0 then 9 else len.toNat) + 4) (intToCnt k) with
      | none => simp [v2Body, h1, h2, h3, V2Result.base]
      | some vs => simp [v2Body, h1, h2, h3, V2Result.base]

/-- Successful run of the post-header body on a well-formed stream: any
5-byte header, the 4-byte table position `9 + pad.length` stored at byte
offset 5, arbitrary padding, then the count and the offsets at that
position. -/
theorem v2Body_spec (w : Bool) (bo : Nat) (h5 pad : List Nat) (vs : List Int)
    (h5len : h5.length = 5) (hpad : 9 + pad.length < 2147483648)
    (hv : ∀ v ∈ vs, 0 ≤ v ∧ v < 2147483648) (hn : (vs.length : Int) < 2147483648) :
    v2Body w bo
      (h5 ++ (encI4 bo ((9 + pad.length : Nat) : Int) ++
        (pad ++ (encI4 bo (vs.length : Int) ++ encList bo vs)))) =
    { V2Result.base with
      ret := 0
      warnedVersion := w
      fileOpened := true
      fileClosed := true
      offset_num := some (vs.length : Int)
      offsets := some vs
      next_line := some 1 } := by
  set eL := encI4 bo ((9 + pad.length : Nat) : Int) with heL
  set eK := encI4 bo ((vs.length : Nat) : Int) with heK
  set data := h5 ++ (eL ++ (pad ++ (eK ++ encList bo vs))) with hdata
  have e1 : readI1 bo data 5 = some (((9 + pad.length : Nat)) : Int) := by
    have h := readI1_at bo h5 (pad ++ (eK ++ encList bo vs))
      ((9 + pad.length : Nat) : Int) (by positivity) (by exact_mod_cast hpad)
    rw [h5len] at h
    exact h
  have hre : data = ((h5 ++ eL) ++ pad) ++ (eK ++ encList bo vs) := by
    simp [hdata]
  have e2 : readI1 bo data (9 + pad.length) = some ((vs.length : Nat) : Int) := by
    have h := readI1_at bo ((h5 ++ eL) ++ pad) (encList bo vs)
      ((vs.length : Nat) : Int) (by positivity) hn
    have hl : ((h5 ++ eL) ++ pad).length = 9 + pad.length := by
      simp [h5len, heL, encI4_length]
      omega
    rw [hl, ← hre] at h
    exact h
  have hre3 : data = (((h5 ++ eL) ++ pad) ++ eK) ++ encList bo vs := by
    simp [hdata]
  have e3 : readIs bo data (9 + pad.length + 4) vs.length = some vs := by
    have h := readIs_encList bo vs (((h5 ++ eL) ++ pad) ++ eK) [] hv
    have hl : ((((h5 ++ eL) ++ pad) ++ eK)).length = 9 + pad.length + 4 := by
      simp [h5len, heL, heK, encI4_length]
      omega
    rw [List.append_nil, hl, ← hre3] at h
    exact h
  have hpos : (if (((9 + pad.length : Nat) : Int)) < 0 then (9 : Nat)
      else (((9 + pad.length : Nat) : Int)).toNat) = 9 + pad.length := by
    rw [if_neg (by omega)]
    omega
  unfold v2Body
  rw [e1]
  simp only [hpos, e2, e3, intToCnt_ofNat]

/-- Evaluating `V2_open_old_ogr` on a stream with an explicit 5-byte
header reduces to the version decision followed by the body. -/
theorem V2_header_step (b0 b1 b2 b3 bo : Nat) (rest : List Nat) :
    V2_open_old_ogr (some ([b0, b1, b2, b3, bo] ++ rest)) =
    (match versionAccept b0 b1 b2 b3 with
     | VersionDecision.rejectFatal =>
       { V2Result.base with
         ret := -1
         fatal := true
         msgVersions := [(toSigned8 b0, toSigned8 b1)]
         fileOpened := true }
     | VersionDecision.acceptWarn => v2Body true bo ([b0, b1, b2, b3, bo] ++ rest)
     | VersionDecision.acceptSilent => v2Body false bo ([b0, b1, b2, b3, bo] ++ rest)) := by
  have h5 : readN ([b0, b1, b2, b3, bo] ++ rest) 0 5 = some [b0, b1, b2, b3, bo] := by
    have h := readN_at [] [b0, b1, b2, b3, bo] rest
    simpa using h
  simp only [List.cons_append, List.nil_append] at h5
  simp [V2_open_old_ogr, h5]

/-! ### Level-1 open of an existing layer (`V1_open_old_ogr`) -/

/-- The fatal errors `V1_open_old_ogr` can raise, with the identifier
each message names. -/
inductive V1Fatal
  | noDsn
  | noLayerName
  | openFail (dsn : String)
  | layerNotFound (layer : String)
deriving DecidableEq

/-- Observable outcome of `V1_open_old_ogr`: return value, the fatal
error raised if any (`G_fatal_error` does not return; `ret = -1` records
the terminal state), the access mode passed to `OGROpen` (`none` when the
data source was never opened), whether `Map->fInfo.ogr.ds` was assigned,
whether the data-source handle was destroyed again, and the resolved
layer index. -/
structure V1Result where
  ret : Int
  fatalKind : Option V1Fatal
  openMode : Option Bool
  dsSet : Bool
  dsDestroyed : Bool
  layer : Option Nat
deriving DecidableEq

/-- The `dsn` and `layer_name` fields of `Map->fInfo.ogr` that
`V1_open_old_ogr` requires (`none` models a NULL pointer). -/
structure MapOgrInput where
  dsn : Option String
  layer_name : Option String

/-- The linear layer scan of `V1_open_old_ogr` (open_ogr.c:84-95): walk
the data source's layers in provider order, return the first index whose
declared name equals the target under exact string equality (`strcmp`). -/
def layerScan : List String → String → Option Nat
  | [], _ => none
  | n :: rest, t => if n = t then some 0 else (layerScan rest t).map (fun i => i + 1)

/-- `V1_open_old_ogr` (open_ogr.c:45-117). The `update` check is
commented out in the source; `env dsn mode` models `OGROpen(dsn, mode,
NULL)` returning the layer names of the opened data source in provider
order (or `none` on failure) — the mode argument is the literal `FALSE`
in the call. Missing dsn or layer name is a fatal precondition failure
before any provider call; an unmatched layer name destroys the
data-source handle and raises a fatal error naming the layer. -/
def V1_open_old_ogr (env : String → Bool → Option (List String))
    (m : MapOgrInput) (update : Int) : V1Result :=
  match m.dsn with
  | none =>
    { ret := -1, fatalKind := some V1Fatal.noDsn, openMode := none,
      dsSet := false, dsDestroyed := false, layer := none }
  | some dsn =>
    match m.layer_name with
    | none =>
      { ret := -1, fatalKind := some V1Fatal.noLayerName, openMode := none,
        dsSet := false, dsDestroyed := false, layer := none }
    | some ln =>
      match env dsn false with
      | none =>
        { ret := -1, fatalKind := some (V1Fatal.openFail dsn), openMode := some false,
          dsSet := false, dsDestroyed := false, layer := none }
      | some names =>
        match layerScan names ln with
        | none =>
          { ret := -1, fatalKind := some (V1Fatal.layerNotFound ln), openMode := some false,
            dsSet := true, dsDestroyed := true, layer := none }
        | some i =>
          { ret := 0, fatalKind := none, openMode := some false,
            dsSet := true, dsDestroyed := false, layer := some i }

theorem layerScan_some (names : List String) (t : String) :
    ∀ i, layerScan names t = some i →
    i < names.length ∧ names.getD i "" = t ∧ ∀ j, j < i → names.getD j "" ≠ t := by
  induction names with
  | nil => intro i h; cases h
  | cons n rest ih =>
    intro i h
    unfold layerScan at h
    by_cases hn : n = t
    · rw [if_pos hn] at h
      cases h
      exact ⟨by simp, by simpa using hn, fun j hj => by omega⟩
    · rw [if_neg hn] at h
      cases hrest : layerScan rest t with
      | none => rw [hrest] at h; cases h
      | some i0 =>
        rw [hrest] at h
        simp only [Option.map_some'] at h
        cases h
        obtain ⟨hlt, hget, hmin⟩ := ih i0 hrest
        refine ⟨by simpa using hlt, by simpa using hget, ?_⟩
        intro j hj
        cases j with
        | zero => simpa using hn
        | succ j0 =>
          have := hmin j0 (by omega)
          simpa using this

theorem layerScan_none (names : List String) (t : String) :
    layerScan names t = none → ∀ j, j < names.length → names.getD j "" ≠ t := by
  induction names with
  | nil => intro _ j hj; simp at hj
  | cons n rest ih =>
    intro h j hj
    unfold layerScan at h
    by_cases hn : n = t
    · rw [if_pos hn] at h; cases h
    · rw [if_neg hn] at h
      cases j with
      | zero => simpa using hn
      | succ j0 =>
        cases hrest : layerScan rest t with
        | none =>
          have := ih hrest j0 (by simpa using hj)
          simpa using this
        | some i0 => rw [hrest] at h; cases h

/-! ### Layer creation (`V1_open_new_ogr`) -/

/-- A provider layer object: an opaque identity together with its
declared name. Handle equality (C pointer comparison) is modelled as
equality of the pair. -/
abbrev OgrLayer := Nat × String

/-- `OGR_DS_GetLayerByName`, modelled from the spec's provider capability
interface: the first layer of the data source carrying the name. -/
def findLayerByName : List OgrLayer → String → Option OgrLayer
  | [], _ => none
  | p :: rest, n => if p.2 = n then some p else findLayerByName rest n

/-- The identity scan of open_ogr.c:244-245: the first index `i` with
`OGR_DS_GetLayer(ds, i) == layer` (handle equality). -/
def findLayerIdx : List OgrLayer → OgrLayer → Option Nat
  | [], _ => none
  | p :: rest, q => if p = q then some 0 else (findLayerIdx rest q).map (fun i => i + 1)

/-- First index of a layer with the given name, used to state which index
the identity scan resolves to. -/
def nameIdx : List OgrLayer → String → Option Nat
  | [], _ => none
  | p :: rest, n => if p.2 = n then some 0 else (nameIdx rest n).map (fun i => i + 1)

/-- Environment of `V1_open_new_ogr`: whether the named driver resolves,
the layers of the created/opened data source (`none` models
`OGR_Dr_CreateDataSource` failing), the process-wide overwrite flag
(`G_get_overwrite`), whether `OGR_DS_DeleteLayer` succeeds, whether
`OGR_DS_CreateLayer` succeeds, and the identity of the layer it would
create. -/
structure NewEnv where
  driverOk : Bool
  dsLayers : Option (List OgrLayer)
  overwrite : Bool
  deleteOk : Bool
  createOk : Bool
  newId : Nat

/-- Observable outcome of `V1_open_new_ogr`: return value, whether the
fatal "layer already exists" error was raised (`G_fatal_error` does not
return), the two warnings, the index handed to `OGR_DS_DeleteLayer` on a
successful delete, whether the new layer was created, and the data
source's layer list afterwards (`none` when no data source exists). -/
structure NewResult where
  ret : Int
  fatalExists : Bool
  warnedOverwrite : Bool
  warnedDeleteFail : Bool
  deletedIndex : Option Nat
  created : Bool
  layersAfter : Option (List OgrLayer)
deriving DecidableEq

/-- The layer-creation tail of `V1_open_new_ogr` (open_ogr.c:265-278):
`OGR_DS_CreateLayer` appends a new layer with the requested name, or
fails with a warning and -1. -/
def createStep (env : NewEnv) (ln : String) (ls : List OgrLayer)
    (del : Option Nat) (wOver : Bool) : NewResult :=
  if env.createOk then
    { ret := 0, fatalExists := false, warnedOverwrite := wOver,
      warnedDeleteFail := false, deletedIndex := del, created := true,
      layersAfter := some (ls ++ [(env.newId, ln)]) }
  else
    { ret := -1, fatalExists := false, warnedOverwrite := wOver,
      warnedDeleteFail := false, deletedIndex := del, created := false,
      layersAfter := some ls }

/-- `V1_open_new_ogr` (open_ogr.c:213-279): resolve the driver (failure
is a recoverable warning), create/open the data source, look the target
layer up by name; if present, locate its index by handle identity and
gate on the overwrite flag — unset flag is a fatal error, a failing
delete is a recoverable error aborting creation, a successful delete
removes exactly that index — then create the new layer. -/
def V1_open_new_ogr (env : NewEnv) (ln : String) : NewResult :=
  if env.driverOk = false then
    { ret := -1, fatalExists := false, warnedOverwrite := false,
      warnedDeleteFail := false, deletedIndex := none, created := false,
      layersAfter := none }
  else
    match env.dsLayers with
    | none =>
      { ret := -1, fatalExists := false, warnedOverwrite := false,
        warnedDeleteFail := false, deletedIndex := none, created := false,
        layersAfter := none }
    | some ls =>
      match findLayerByName ls ln with
      | none => createStep env ln ls none false
      | some layerObj =>
        match findLayerIdx ls layerObj with
        | none => createStep env ln ls none false
        | some i =>
          if env.overwrite then
            if env.deleteOk then createStep env ln (ls.eraseIdx i) (some i) true
            else
              { ret := -1, fatalExists := false, warnedOverwrite := true,
                warnedDeleteFail := true, deletedIndex := none, created := false,
                layersAfter := some ls }
          else
            { ret := -1, fatalExists := true, warnedOverwrite := false,
              warnedDeleteFail := false, deletedIndex := none, created := false,
              layersAfter := some ls }

theorem findLayerByName_name (ls : List OgrLayer) (n : String) :
    ∀ L, findLayerByName ls n = some L → L.2 = n := by
  induction ls with
  | nil => intro L h; cases h
  | cons p rest ih =>
    intro L h
    unfold findLayerByName at h
    by_cases hp : p.2 = n
    · rw [if_pos hp] at h; cases h; exact hp
    · rw [if_neg hp] at h; exact ih L h

theorem findLayerByName_none_iff (ls : List OgrLayer) (n : String) :
    findLayerByName ls n = none ↔ ∀ p ∈ ls, p.2 ≠ n := by
  induction ls with
  | nil => simp [findLayerByName]
  | cons p rest ih =>
    unfold findLayerByName
    by_cases hp : p.2 = n
    · rw [if_pos hp]
      simp [hp]
    · rw [if_neg hp]
      simp [hp, ih]

theorem findLayerIdx_of_byName (ls : List OgrLayer) (n : String) :
    ∀ L, findLayerByName ls n = some L → findLayerIdx ls L = nameIdx ls n := by
  induction ls with
  | nil => intro L h; cases h
  | cons p rest ih =>
    intro L h
    unfold findLayerByName at h
    by_cases hp : p.2 = n
    · rw [if_pos hp] at h
      cases h
      unfold findLayerIdx nameIdx
      rw [if_pos rfl, if_pos hp]
    · rw [if_neg hp] at h
      have hLn : L.2 = n := findLayerByName_name rest n L h
      have hpL : p ≠ L := by
        intro he
        rw [he] at hp
        exact hp hLn
      unfold findLayerIdx nameIdx
      rw [if_neg hpL, if_neg hp, ih L h]

theorem nameIdx_some (ls : List OgrLayer) (n : String) :
    ∀ L, findLayerByName ls n = some L → ∃ i, nameIdx ls n = some i := by
  induction ls with
  | nil => intro L h; cases h
  | cons p rest ih =>
    intro L h
    unfold findLayerByName at h
    unfold nameIdx
    by_cases hp : p.2 = n
    · rw [if_pos hp]
      exact ⟨0, rfl⟩
    · rw [if_neg hp] at h
      rw [if_neg hp]
      obtain ⟨i, hi⟩ := ih L h
      exact ⟨i + 1, by rw [hi]; rfl⟩

/-! ### Claims -/

theorem versionAccept_eq (b0 b1 b2 b3 : Nat) :
    (versionAccept b0 b1 b2 b3 = VersionDecision.rejectFatal ↔
      ((toSigned8 b0 > 5 ∨ toSigned8 b1 > 0) ∧ (toSigned8 b2 > 5 ∨ toSigned8 b3 > 0))) ∧
    (versionAccept b0 b1 b2 b3 = VersionDecision.acceptWarn ↔
      ((toSigned8 b0 > 5 ∨ toSigned8 b1 > 0) ∧ ¬(toSigned8 b2 > 5 ∨ toSigned8 b3 > 0))) ∧
    (versionAccept b0 b1 b2 b3 = VersionDecision.acceptSilent ↔
      ¬(toSigned8 b0 > 5 ∨ toSigned8 b1 > 0)) := by
  unfold versionAccept
  by_cases h1 : toSigned8 b0 > 5 ∨ toSigned8 b1 > 0 <;>
    by_cases h2 : toSigned8 b2 > 5 ∨ toSigned8 b3 > 0 <;>
    simp [h1, h2]

/-- C1, counterexample: the claim says every file whose written version W
is not newer than the reader's supported version R = 5.0 (compared as a
major.minor pair) is accepted unconditionally. The file with header
W = 4.1, F = 4.1 satisfies W ≤ R in the pair order, yet
`V2_open_old_ogr` rejects it with a fatal error, because the code
compares the major and minor components independently
(`Version_Major > 5 || Version_Minor > 0`). -/
theorem C1_counterexample :
    specVersionLE 4 1 5 0 ∧
    (V2_open_old_ogr (some [4, 1, 4, 1, 0])).fatal = true ∧
    (V2_open_old_ogr (some [4, 1, 4, 1, 0])).ret = -1 := by
  refine ⟨by decide, by decide, by decide⟩

/-- C1 (amended): `V2_open_old_ogr` rejects a fidx file with a fatal
error iff both the written version and the backward-compatibility floor
have (as signed header bytes) major > 5 or minor > 0; it accepts with a
non-fatal warning iff the written version trips that componentwise test
but the floor does not; it accepts silently otherwise. The acceptance
test is componentwise, not the major.minor pair order of the claim. -/
theorem C1_amended_version_acceptance (b0 b1 b2 b3 bo : Nat) (rest : List Nat) :
    ((V2_open_old_ogr (some ([b0, b1, b2, b3, bo] ++ rest))).fatal = true ↔
      ((toSigned8 b0 > 5 ∨ toSigned8 b1 > 0) ∧ (toSigned8 b2 > 5 ∨ toSigned8 b3 > 0))) ∧
    ((V2_open_old_ogr (some ([b0, b1, b2, b3, bo] ++ rest))).warnedVersion = true ↔
      ((toSigned8 b0 > 5 ∨ toSigned8 b1 > 0) ∧ ¬(toSigned8 b2 > 5 ∨ toSigned8 b3 > 0))) := by
  obtain ⟨hr, hw, hs⟩ := versionAccept_eq b0 b1 b2 b3
  cases hva : versionAccept b0 b1 b2 b3 with
  | acceptSilent =>
    have hns := hs.mp hva
    obtain ⟨hf, _, _, hwv, _⟩ := v2Body_fields false bo ([b0, b1, b2, b3, bo] ++ rest)
    simp only [V2_header_step, hva, hf, hwv]
    constructor
    · simp [hns]
    · simp
      intro hc
      exact absurd hc hns
  | acceptWarn =>
    have hcw := hw.mp hva
    obtain ⟨hf, _, _, hwv, _⟩ := v2Body_fields true bo ([b0, b1, b2, b3, bo] ++ rest)
    simp only [V2_header_step, hva, hf, hwv]
    constructor
    · constructor
      · intro h
        exact absurd h (by simp)
      · intro h
        exact absurd h.2 hcw.2
    · simp [hcw.1, hcw.2]
  | rejectFatal =>
    have hc := hr.mp hva
    simp only [V2_header_step, hva]
    constructor
    · simp [V2Result.base, hc]
    · constructor
      · intro h
        exact absurd h (by simp [V2Result.base])
      · intro h
        exact absurd hc.2 h.2

/-- A fidx header written by the current writer (version 5.0, floor 5.0)
is accepted silently, and the body runs. -/
theorem V2_silent (bo : Nat) (rest : List Nat) :
    V2_open_old_ogr (some ([5, 0, 5, 0, bo] ++ rest)) =
    v2Body false bo ([5, 0, 5, 0, bo] ++ rest) := by
  have hva : versionAccept 5 0 5 0 = VersionDecision.acceptSilent := by decide
  simp only [V2_header_step, hva]

/-- C2: short-read rejection during offset-table load. If the stream
declares count `k` but carries only `vs.length < k` offset values,
`V2_open_old_ogr` returns -1 and the offset array is never populated
(`offsets = none`, `next_line` untouched); likewise when the stream ends
before the count value itself can be read (second conjunct), where also
`offset_num` is untouched. -/
theorem C2_short_read_rejected (bo : Nat) (k : Nat) (vs : List Int)
    (hk : vs.length < k) (hk31 : k < 2147483648)
    (hv : ∀ v ∈ vs, 0 ≤ v ∧ v < 2147483648) :
    ((V2_open_old_ogr (some ([5, 0, 5, 0, bo] ++
        (encI4 bo 9 ++ (encI4 bo (k : Int) ++ encList bo vs))))).ret = -1 ∧
     (V2_open_old_ogr (some ([5, 0, 5, 0, bo] ++
        (encI4 bo 9 ++ (encI4 bo (k : Int) ++ encList bo vs))))).offset_num = some (k : Int) ∧
     (V2_open_old_ogr (some ([5, 0, 5, 0, bo] ++
        (encI4 bo 9 ++ (encI4 bo (k : Int) ++ encList bo vs))))).offsets = none ∧
     (V2_open_old_ogr (some ([5, 0, 5, 0, bo] ++
        (encI4 bo 9 ++ (encI4 bo (k : Int) ++ encList bo vs))))).next_line = none) ∧
    ((V2_open_old_ogr (some ([5, 0, 5, 0, bo] ++ encI4 bo 9))).ret = -1 ∧
     (V2_open_old_ogr (some ([5, 0, 5, 0, bo] ++ encI4 bo 9))).offset_num = none ∧
     (V2_open_old_ogr (some ([5, 0, 5, 0, bo] ++ encI4 bo 9))).offsets = none ∧
     (V2_open_old_ogr (some ([5, 0, 5, 0, bo] ++ encI4 bo 9))).next_line = none) := by
  constructor
  · set data := [5, 0, 5, 0, bo] ++ (encI4 bo 9 ++ (encI4 bo (k : Int) ++ encList bo vs))
      with hdata
    have e1 : readI1 bo data 5 = some 9 := by
      have h := readI1_at bo [5, 0, 5, 0, bo] (encI4 bo (k : Int) ++ encList bo vs) 9
        (by omega) (by omega)
      rw [show ([5, 0, 5, 0, bo] : List Nat).length = 5 from rfl] at h
      exact h
    have hre : data = ([5, 0, 5, 0, bo] ++ encI4 bo 9) ++ (encI4 bo (k : Int) ++ encList bo vs) := by
      simp [hdata]
    have e2 : readI1 bo data 9 = some (k : Int) := by
      have h := readI1_at bo ([5, 0, 5, 0, bo] ++ encI4 bo 9) (encList bo vs) (k : Int)
        (by omega) (by exact_mod_cast hk31)
      have hl : (([5, 0, 5, 0, bo] : List Nat) ++ encI4 bo 9).length = 9 := by
        simp [encI4_length]
      rw [hl, ← hre] at h
      exact h
    have e3 : readIs bo data 13 k = none := by
      apply readIs_short bo k 13 data (by omega)
      have : data.length = 13 + 4 * vs.length := by
        simp [hdata, encI4_length, encList_length]
        omega
      omega
    have hpos : (if (9 : Int) < 0 then (9 : Nat) else (9 : Int).toNat) = 9 := by decide
    rw [V2_silent]
    unfold v2Body
    rw [e1]
    simp only [hpos, e2, e3, intToCnt_ofNat, Option.map_some']
    exact ⟨trivial, trivial, rfl, rfl⟩
  · set data := ([5, 0, 5, 0, bo] : List Nat) ++ encI4 bo 9 with hdata
    have e1 : readI1 bo data 5 = some 9 := by
      have h := readI1_at bo [5, 0, 5, 0, bo] [] 9 (by omega) (by omega)
      rw [show ([5, 0, 5, 0, bo] : List Nat).length = 5 from rfl, List.append_nil] at h
      exact h
    have e2 : readI1 bo data 9 = none := by
      apply readI1_none
      simp [hdata, encI4_length]
    have hpos : (if (9 : Int) < 0 then (9 : Nat) else (9 : Int).toNat) = 9 := by decide
    rw [V2_silent]
    unfold v2Body
    rw [e1]
    simp only [hpos, e2]
    exact ⟨trivial, rfl, rfl, rfl⟩

/-- Witness for C2 at `bo = 0`, `k = 3`, `vs = [42]`. -/
theorem C2_witness :
    (V2_open_old_ogr (some ([5, 0, 5, 0, 0] ++
      (encI4 0 9 ++ (encI4 0 (3 : Int) ++ encList 0 [42]))))).ret = -1 ∧
    (V2_open_old_ogr (some ([5, 0, 5, 0, 0] ++
      (encI4 0 9 ++ (encI4 0 (3 : Int) ++ encList 0 [42]))))).offset_num = some (3 : Int) ∧
    (V2_open_old_ogr (some ([5, 0, 5, 0, 0] ++
      (encI4 0 9 ++ (encI4 0 (3 : Int) ++ encList 0 [42]))))).offsets = none ∧
    (V2_open_old_ogr (some ([5, 0, 5, 0, 0] ++
      (encI4 0 9 ++ (encI4 0 (3 : Int) ++ encList 0 [42]))))).next_line = none := by
  have h := (C2_short_read_rejected 0 3 [42] (by decide) (by decide)
    (by intro v hv; simp at hv; omega)).1
  exact_mod_cast h

/-- C3, counterexample: a 28-byte file laid out exactly as the claim
describes (big-endian tag): header_length = 13 stored at offset 5, a
payload_offset = 20 stored at offset header_length = 13, count = 1 at
offset payload_offset = 20, and the single offset value 42 at 24. Per the
claim the reader should load the one-entry table [42]; instead
`V2_open_old_ogr` seeks directly to 13 (the value read at offset 5),
reads 20 as the count, hits a short read and fails: there is no second
indirection through a payload_offset field. -/
theorem C3_counterexample :
    (V2_open_old_ogr (some [5, 0, 5, 0, 1, 0, 0, 0, 13, 0, 0, 0, 0,
      0, 0, 0, 20, 0, 0, 0, 0, 0, 0, 1, 0, 0, 0, 42])).ret = -1 ∧
    (V2_open_old_ogr (some [5, 0, 5, 0, 1, 0, 0, 0, 13, 0, 0, 0, 0,
      0, 0, 0, 20, 0, 0, 0, 0, 0, 0, 1, 0, 0, 0, 42])).offsets ≠ some [42] := by
  refine ⟨by decide, by decide⟩

/-- C3 (amended): the 4-byte value stored at byte offset 5 is itself the
byte position of the offset table (single indirection, allowing padding
between the 9-byte fixed part and the table); the reader seeks to that
position and reads the count there, with the count's offset values
immediately after. There is no separate payload_offset integer stored at
offset header_length. -/
theorem C3_amended_layout (bo : Nat) (pad : List Nat) (vs : List Int)
    (hpad : 9 + pad.length < 2147483648)
    (hv : ∀ v ∈ vs, 0 ≤ v ∧ v < 2147483648) (hn : (vs.length : Int) < 2147483648) :
    V2_open_old_ogr (some ([5, 0, 5, 0, bo] ++
      (encI4 bo ((9 + pad.length : Nat) : Int) ++
        (pad ++ (encI4 bo (vs.length : Int) ++ encList bo vs))))) =
    { V2Result.base with
      ret := 0
      warnedVersion := false
      fileOpened := true
      fileClosed := true
      offset_num := some (vs.length : Int)
      offsets := some vs
      next_line := some 1 } := by
  rw [V2_silent]
  exact v2Body_spec false bo [5, 0, 5, 0, bo] pad vs rfl hpad hv hn

/-- Witness for the amended C3 at `bo = 1`, three padding bytes,
`vs = [99]`. -/
theorem C3_witness :
    V2_open_old_ogr (some ([5, 0, 5, 0, 1] ++
      (encI4 1 ((9 + ([0, 0, 0] : List Nat).length : Nat) : Int) ++
        ([0, 0, 0] ++ (encI4 1 (([99] : List Int).length : Int) ++ encList 1 [99]))))) =
    { V2Result.base with
      ret := 0
      warnedVersion := false
      fileOpened := true
      fileClosed := true
      offset_num := some (([99] : List Int).length : Int)
      offsets := some [99]
      next_line := some 1 } :=
  C3_amended_layout 1 [0, 0, 0] [99] (by decide)
    (by intro v hv; simp at hv; omega) (by decide)

/-- C4: round-trip. For every byte-order tag and every list of offsets
(in signed 32-bit range), writing the fidx header plus offset table and
reading it back with `V2_open_old_ogr` succeeds with a silently accepted
header, `offset_num` equal to the number of entries, and the offset
sequence equal element-for-element to the written input — including the
empty table. -/
theorem C4_roundtrip (bo : Nat) (offsets : List Int)
    (hv : ∀ v ∈ offsets, 0 ≤ v ∧ v < 2147483648)
    (hn : (offsets.length : Int) < 2147483648) :
    V2_open_old_ogr (some (write_fidx bo offsets)) =
    { V2Result.base with
      ret := 0
      warnedVersion := false
      fileOpened := true
      fileClosed := true
      offset_num := some (offsets.length : Int)
      offsets := some offsets
      next_line := some 1 } := by
  have hw : write_fidx bo offsets = [5, 0, 5, 0, bo] ++
      (encI4 bo ((9 + ([] : List Nat).length : Nat) : Int) ++
        (([] : List Nat) ++ (encI4 bo (offsets.length : Int) ++ encList bo offsets))) := by
    simp [write_fidx]
  rw [hw, V2_silent]
  exact v2Body_spec false bo [5, 0, 5, 0, bo] [] offsets rfl (by decide) hv hn

/-- Witness for C4 at `bo = 0`, `offsets = [7, 3]`; the N = 0 case is
exercised through the second conjunct at `bo = 1`. -/
theorem C4_witness :
    (V2_open_old_ogr (some (write_fidx 0 [7, 3])) =
      { V2Result.base with
        ret := 0
        warnedVersion := false
        fileOpened := true
        fileClosed := true
        offset_num := some ((([7, 3] : List Int).length : Nat) : Int)
        offsets := some [7, 3]
        next_line := some 1 }) ∧
    (V2_open_old_ogr (some (write_fidx 1 [])) =
      { V2Result.base with
        ret := 0
        warnedVersion := false
        fileOpened := true
        fileClosed := true
        offset_num := some ((([] : List Int).length : Nat) : Int)
        offsets := some []
        next_line := some 1 }) :=
  ⟨C4_roundtrip 0 [7, 3] (by intro v hv; simp at hv; rcases hv with h | h <;> omega) (by decide),
   C4_roundtrip 1 [] (by intro v hv; simp at hv) (by decide)⟩

/-- C5, counterexample: on the empty fidx file the header read is short,
`V2_open_old_ogr` returns -1, and the file handle that was just opened is
left open — none of the error exits of `V2_open_old_ogr` reaches the
`fclose`, which sits only on the success path (open_ogr.c:194). -/
theorem C5_counterexample :
    (V2_open_old_ogr (some [])).ret = -1 ∧
    (V2_open_old_ogr (some [])).fileOpened = true ∧
    (V2_open_old_ogr (some [])).fileClosed = false := by
  refine ⟨by decide, by decide, by decide⟩

/-- C5 (amended): `V1_open_old_ogr` does destroy the data-source handle
before its fatal layer-not-found error, but `V2_open_old_ogr` closes the
fidx file handle only when it succeeds — every error exit taken after the
file was opened returns with the handle still open. -/
theorem C5_amended_resource_release :
    (∀ (env : String → Bool → Option (List String)) (dsn ln : String)
       (names : List String) (update : Int),
      env dsn false = some names → layerScan names ln = none →
      (V1_open_old_ogr env ⟨some dsn, some ln⟩ update).dsDestroyed = true ∧
      (V1_open_old_ogr env ⟨some dsn, some ln⟩ update).fatalKind =
        some (V1Fatal.layerNotFound ln)) ∧
    (∀ data : List Nat,
      (V2_open_old_ogr (some data)).fileClosed = true ↔
      (V2_open_old_ogr (some data)).ret = 0) := by
  constructor
  · intro env dsn ln names update henv hscan
    constructor <;> simp [V1_open_old_ogr, henv, hscan]
  · intro data
    cases h5 : readN data 0 5 with
    | none => simp [V2_open_old_ogr, h5, V2Result.base]
    | some hdr =>
      simp only [V2_open_old_ogr, h5]
      cases hva : versionAccept (hdr.getD 0 0) (hdr.getD 1 0) (hdr.getD 2 0) (hdr.getD 3 0) with
      | rejectFatal => simp only [hva]; simp [V2Result.base]
      | acceptWarn =>
        obtain ⟨_, _, _, _, _, hiff, _⟩ := v2Body_fields true (hdr.getD 4 0) data
        simpa only [hva] using hiff
      | acceptSilent =>
        obtain ⟨_, _, _, _, _, hiff, _⟩ := v2Body_fields false (hdr.getD 4 0) data
        simpa only [hva] using hiff

/-- Witness for the amended C5: a provider with layers `["B"]` and target
`"A"` (layer not found, data source destroyed before the fatal error) and
a well-formed one-entry fidx (file closed iff success). -/
theorem C5_witness :
    ((V1_open_old_ogr (fun _ _ => some ["B"]) ⟨some "d", some "A"⟩ 0).dsDestroyed = true ∧
     (V1_open_old_ogr (fun _ _ => some ["B"]) ⟨some "d", some "A"⟩ 0).fatalKind =
       some (V1Fatal.layerNotFound "A")) ∧
    ((V2_open_old_ogr (some (write_fidx 0 [5]))).fileClosed = true ↔
     (V2_open_old_ogr (some (write_fidx 0 [5]))).ret = 0) :=
  ⟨C5_amended_resource_release.1 (fun _ _ => some ["B"]) "d" "A" ["B"] 0 rfl (by decide),
   C5_amended_resource_release.2 (write_fidx 0 [5])⟩

/-- C6, counterexample: the file with written version 6.1 and floor 6.1
is fatally rejected, but the fatal message carries only the file's
version pair (6, 1) — the reader's supported floor 5.0 appears nowhere in
it, contrary to the claim that the message includes both versions. -/
theorem C6_counterexample :
    (V2_open_old_ogr (some [6, 1, 6, 1, 0])).fatal = true ∧
    (V2_open_old_ogr (some [6, 1, 6, 1, 0])).msgVersions = [(6, 1)] ∧
    ((5 : Int), (0 : Int)) ∉ (V2_open_old_ogr (some [6, 1, 6, 1, 0])).msgVersions := by
  refine ⟨by decide, by decide, by decide⟩

/-- C6 (amended): when both the written version and the floor are newer
than supported (componentwise test), `V2_open_old_ogr` raises a fatal
error whose message names the file's written version only, and the
offset-table payload is never parsed: no length, count or offset value is
read after the rejection, and the file handle is not even closed. -/
theorem C6_amended_reject_atomic (b0 b1 b2 b3 bo : Nat) (rest : List Nat)
    (hrej : versionAccept b0 b1 b2 b3 = VersionDecision.rejectFatal) :
    (V2_open_old_ogr (some ([b0, b1, b2, b3, bo] ++ rest))).fatal = true ∧
    (V2_open_old_ogr (some ([b0, b1, b2, b3, bo] ++ rest))).msgVersions =
      [(toSigned8 b0, toSigned8 b1)] ∧
    (V2_open_old_ogr (some ([b0, b1, b2, b3, bo] ++ rest))).ret = -1 ∧
    (V2_open_old_ogr (some ([b0, b1, b2, b3, bo] ++ rest))).offset_num = none ∧
    (V2_open_old_ogr (some ([b0, b1, b2, b3, bo] ++ rest))).offsets = none ∧
    (V2_open_old_ogr (some ([b0, b1, b2, b3, bo] ++ rest))).next_line = none := by
  simp only [V2_header_step, hrej]
  simp [V2Result.base]

/-- Witness for the amended C6 at header 7.2 / floor 7.2. -/
theorem C6_witness :
    (V2_open_old_ogr (some ([7, 2, 7, 2, 0] ++ []))).fatal = true ∧
    (V2_open_old_ogr (some ([7, 2, 7, 2, 0] ++ []))).msgVersions =
      [(toSigned8 7, toSigned8 2)] ∧
    (V2_open_old_ogr (some ([7, 2, 7, 2, 0] ++ []))).ret = -1 ∧
    (V2_open_old_ogr (some ([7, 2, 7, 2, 0] ++ []))).offset_num = none ∧
    (V2_open_old_ogr (some ([7, 2, 7, 2, 0] ++ []))).offsets = none ∧
    (V2_open_old_ogr (some ([7, 2, 7, 2, 0] ++ []))).next_line = none :=
  C6_amended_reject_atomic 7 2 7 2 0 [] (by decide)

theorem createStep_deletedIndex (env : NewEnv) (ln : String) (ls : List OgrLayer)
    (del : Option Nat) (wOver : Bool) :
    (createStep env ln ls del wOver).deletedIndex = del := by
  unfold createStep
  split <;> rfl

theorem createStep_fatalExists (env : NewEnv) (ln : String) (ls : List OgrLayer)
    (del : Option Nat) (wOver : Bool) :
    (createStep env ln ls del wOver).fatalExists = false := by
  unfold createStep
  split <;> rfl

theorem createStep_warnedOverwrite (env : NewEnv) (ln : String) (ls : List OgrLayer)
    (del : Option Nat) (wOver : Bool) :
    (createStep env ln ls del wOver).warnedOverwrite = wOver := by
  unfold createStep
  split <;> rfl

/-- C7: layer resolution is exact, case-sensitive and first-match. For
every provider layer list and target, `V1_open_old_ogr` resolves to
`layerScan names ln`, which is the smallest index whose declared name
equals the target under exact string equality; when no name matches
exactly, the open fails fatally naming the requested layer. -/
theorem C7_layer_resolution (env : String → Bool → Option (List String))
    (dsn ln : String) (names : List String) (update : Int)
    (henv : env dsn false = some names) :
    ((V1_open_old_ogr env ⟨some dsn, some ln⟩ update).layer = layerScan names ln) ∧
    (∀ i, layerScan names ln = some i →
      i < names.length ∧ names.getD i "" = ln ∧ ∀ j, j < i → names.getD j "" ≠ ln) ∧
    (layerScan names ln = none →
      (V1_open_old_ogr env ⟨some dsn, some ln⟩ update).ret = -1 ∧
      (V1_open_old_ogr env ⟨some dsn, some ln⟩ update).fatalKind =
        some (V1Fatal.layerNotFound ln) ∧
      ∀ j, j < names.length → names.getD j "" ≠ ln) := by
  refine ⟨?_, layerScan_some names ln, ?_⟩
  · cases hscan : layerScan names ln with
    | none => simp [V1_open_old_ogr, henv, hscan]
    | some i => simp [V1_open_old_ogr, henv, hscan]
  · intro hscan
    refine ⟨?_, ?_, layerScan_none names ln hscan⟩ <;>
      simp [V1_open_old_ogr, henv, hscan]

/-- Witness for C7: among layers `["A", "AB", "a"]`, requesting `"A"`
resolves to index 0 — neither the case-variant `"a"` nor the
superstring `"AB"`. -/
theorem C7_witness :
    (V1_open_old_ogr (fun _ _ => some ["A", "AB", "a"]) ⟨some "d", some "A"⟩ 0).layer =
      layerScan ["A", "AB", "a"] "A" ∧
    layerScan ["A", "AB", "a"] "A" = some 0 :=
  ⟨(C7_layer_resolution (fun _ _ => some ["A", "AB", "a"]) "d" "A"
      ["A", "AB", "a"] 0 rfl).1,
   by decide⟩

/-- C8: overwrite gating on creation. When a layer with the target name
exists in the data source, creation is gated on the process-wide
overwrite flag: unset flag raises the fatal "already exists" error with
nothing deleted or created; with the flag set, a failing delete is a
recoverable -1 aborting creation, and a successful delete removes exactly
the first layer carrying the name (located via handle identity) before
the new layer is created. When no layer carries the name, nothing is
deleted and no overwrite diagnostics occur. -/
theorem C8_overwrite_gating (env : NewEnv) (ln : String) (ls : List OgrLayer)
    (hdrv : env.driverOk = true) (hds : env.dsLayers = some ls) :
    ((∃ p ∈ ls, p.2 = ln) →
      (env.overwrite = false →
        (V1_open_new_ogr env ln).fatalExists = true ∧
        (V1_open_new_ogr env ln).created = false ∧
        (V1_open_new_ogr env ln).deletedIndex = none ∧
        (V1_open_new_ogr env ln).layersAfter = some ls) ∧
      (env.overwrite = true → env.deleteOk = false →
        (V1_open_new_ogr env ln).ret = -1 ∧
        (V1_open_new_ogr env ln).fatalExists = false ∧
        (V1_open_new_ogr env ln).created = false ∧
        (V1_open_new_ogr env ln).deletedIndex = none) ∧
      (env.overwrite = true → env.deleteOk = true →
        ∃ i, nameIdx ls ln = some i ∧
          (V1_open_new_ogr env ln).deletedIndex = some i ∧
          (env.createOk = true →
            (V1_open_new_ogr env ln).ret = 0 ∧
            (V1_open_new_ogr env ln).created = true ∧
            (V1_open_new_ogr env ln).layersAfter =
              some (ls.eraseIdx i ++ [(env.newId, ln)])) ∧
          (env.createOk = false →
            (V1_open_new_ogr env ln).ret = -1 ∧
            (V1_open_new_ogr env ln).created = false))) ∧
    ((∀ p ∈ ls, p.2 ≠ ln) →
      (V1_open_new_ogr env ln).deletedIndex = none ∧
      (V1_open_new_ogr env ln).fatalExists = false ∧
      (V1_open_new_ogr env ln).warnedOverwrite = false) := by
  constructor
  · intro hex
    have hL : ∃ L, findLayerByName ls ln = some L := by
      cases h : findLayerByName ls ln with
      | none =>
        obtain ⟨p, hp, hpn⟩ := hex
        exact absurd hpn ((findLayerByName_none_iff ls ln).mp h p hp)
      | some L => exact ⟨L, rfl⟩
    obtain ⟨L, hL⟩ := hL
    obtain ⟨i, hi⟩ := nameIdx_some ls ln L hL
    have hidx : findLayerIdx ls L = some i := by
      rw [findLayerIdx_of_byName ls ln L hL, hi]
    refine ⟨?_, ?_, ?_⟩
    · intro hov
      simp [V1_open_new_ogr, hdrv, hds, hL, hidx, hov]
    · intro hov hdel
      simp [V1_open_new_ogr, hdrv, hds, hL, hidx, hov, hdel]
    · intro hov hdel
      refine ⟨i, hi, ?_, ?_, ?_⟩
      · simp [V1_open_new_ogr, hdrv, hds, hL, hidx, hov, hdel,
          createStep_deletedIndex]
      · intro hc
        simp [V1_open_new_ogr, hdrv, hds, hL, hidx, hov, hdel, createStep, hc]
      · intro hc
        simp [V1_open_new_ogr, hdrv, hds, hL, hidx, hov, hdel, createStep, hc]
  · intro hnone
    have h : findLayerByName ls ln = none := (findLayerByName_none_iff ls ln).mpr hnone
    simp [V1_open_new_ogr, hdrv, hds, h, createStep_deletedIndex,
      createStep_fatalExists, createStep_warnedOverwrite]

/-- Witness for C8: layers `[(1, "X"), (2, "Y")]`, target `"X"`, overwrite
flag unset — fatal, nothing deleted or created. -/
theorem C8_witness :
    (V1_open_new_ogr ⟨true, some [(1, "X"), (2, "Y")], false, true, true, 7⟩ "X").fatalExists = true ∧
    (V1_open_new_ogr ⟨true, some [(1, "X"), (2, "Y")], false, true, true, 7⟩ "X").created = false ∧
    (V1_open_new_ogr ⟨true, some [(1, "X"), (2, "Y")], false, true, true, 7⟩ "X").deletedIndex = none ∧
    (V1_open_new_ogr ⟨true, some [(1, "X"), (2, "Y")], false, true, true, 7⟩ "X").layersAfter =
      some [(1, "X"), (2, "Y")] :=
  ((C8_overwrite_gating ⟨true, some [(1, "X"), (2, "Y")], false, true, true, 7⟩
      "X" [(1, "X"), (2, "Y")] rfl rfl).1
    ⟨(1, "X"), by simp, rfl⟩).1 rfl

/-- C9: a missing fidx file is non-fatal. Level-1 open succeeds whenever
the preconditions hold and the layer resolves (it never consults the fidx
file — `V1_open_old_ogr` takes no fidx input at all), and
`V2_open_old_ogr` on a missing fidx emits a warning and returns -1
without a fatal error and without touching any offset-table or cursor
field, leaving the session usable at level 1. Conversely, a missing
data-source identifier or layer name is a fatal precondition failure
raised before the provider is ever contacted (no open, no side effects). -/
theorem C9_missing_index_nonfatal :
    (∀ (env : String → Bool → Option (List String)) (dsn ln : String)
       (names : List String) (update : Int) (i : Nat),
      env dsn false = some names → layerScan names ln = some i →
      (V1_open_old_ogr env ⟨some dsn, some ln⟩ update).ret = 0 ∧
      (V1_open_old_ogr env ⟨some dsn, some ln⟩ update).fatalKind = none) ∧
    ((V2_open_old_ogr none).ret = -1 ∧
     (V2_open_old_ogr none).warnedMissing = true ∧
     (V2_open_old_ogr none).fatal = false ∧
     (V2_open_old_ogr none).offset_num = none ∧
     (V2_open_old_ogr none).offsets = none ∧
     (V2_open_old_ogr none).next_line = none ∧
     (V2_open_old_ogr none).fileOpened = false) ∧
    (∀ (env : String → Bool → Option (List String)) (ln : Option String) (update : Int),
      (V1_open_old_ogr env ⟨none, ln⟩ update).ret = -1 ∧
      (V1_open_old_ogr env ⟨none, ln⟩ update).fatalKind = some V1Fatal.noDsn ∧
      (V1_open_old_ogr env ⟨none, ln⟩ update).openMode = none ∧
      (V1_open_old_ogr env ⟨none, ln⟩ update).dsSet = false) ∧
    (∀ (env : String → Bool → Option (List String)) (d : String) (update : Int),
      (V1_open_old_ogr env ⟨some d, none⟩ update).ret = -1 ∧
      (V1_open_old_ogr env ⟨some d, none⟩ update).fatalKind = some V1Fatal.noLayerName ∧
      (V1_open_old_ogr env ⟨some d, none⟩ update).openMode = none ∧
      (V1_open_old_ogr env ⟨some d, none⟩ update).dsSet = false) := by
  refine ⟨?_, by decide, ?_, ?_⟩
  · intro env dsn ln names update i henv hscan
    constructor <;> simp [V1_open_old_ogr, henv, hscan]
  · intro env ln update
    refine ⟨?_, ?_, ?_, ?_⟩ <;> simp [V1_open_old_ogr]
  · intro env d update
    refine ⟨?_, ?_, ?_, ?_⟩ <;> simp [V1_open_old_ogr]

/-- Witness for C9: a one-layer provider resolving `"L"` at level 1, and
the two precondition failures at concrete inputs. -/
theorem C9_witness :
    ((V1_open_old_ogr (fun _ _ => some ["L"]) ⟨some "d", some "L"⟩ 3).ret = 0 ∧
     (V1_open_old_ogr (fun _ _ => some ["L"]) ⟨some "d", some "L"⟩ 3).fatalKind = none) ∧
    ((V1_open_old_ogr (fun _ _ => none) ⟨none, some "L"⟩ 0).ret = -1 ∧
     (V1_open_old_ogr (fun _ _ => none) ⟨none, some "L"⟩ 0).fatalKind = some V1Fatal.noDsn ∧
     (V1_open_old_ogr (fun _ _ => none) ⟨none, some "L"⟩ 0).openMode = none ∧
     (V1_open_old_ogr (fun _ _ => none) ⟨none, some "L"⟩ 0).dsSet = false) ∧
    ((V1_open_old_ogr (fun _ _ => none) ⟨some "d", none⟩ 0).ret = -1 ∧
     (V1_open_old_ogr (fun _ _ => none) ⟨some "d", none⟩ 0).fatalKind = some V1Fatal.noLayerName ∧
     (V1_open_old_ogr (fun _ _ => none) ⟨some "d", none⟩ 0).openMode = none ∧
     (V1_open_old_ogr (fun _ _ => none) ⟨some "d", none⟩ 0).dsSet = false) :=
  ⟨C9_missing_index_nonfatal.1 (fun _ _ => some ["L"]) "d" "L" ["L"] 3 0 rfl (by decide),
   C9_missing_index_nonfatal.2.2.1 (fun _ _ => none) (some "L") 0,
   C9_missing_index_nonfatal.2.2.2 (fun _ _ => none) "d" 0⟩

/-- C10: the `update` parameter of `V1_open_old_ogr` is never examined —
its write-mode check is commented out in the source — so the function's
entire observable outcome is identical for every value of `update`, and
whenever the data source is opened at all it is opened read-only (the
mode handed to `OGROpen` is the literal `FALSE`, never `TRUE`). -/
theorem C10_update_ignored (env : String → Bool → Option (List String))
    (m : MapOgrInput) (u u' : Int) :
    V1_open_old_ogr env m u = V1_open_old_ogr env m u' ∧
    (V1_open_old_ogr env m u).openMode ≠ some true := by
  constructor
  · rfl
  · cases hd : m.dsn with
    | none => simp [V1_open_old_ogr, hd]
    | some dsn =>
      cases hl : m.layer_name with
      | none => simp [V1_open_old_ogr, hd, hl]
      | some ln =>
        cases he : env dsn false with
        | none => simp [V1_open_old_ogr, hd, hl, he]
        | some names =>
          cases hs : layerScan names ln with
          | none => simp [V1_open_old_ogr, hd, hl, he, hs]
          | some i => simp [V1_open_old_ogr, hd, hl, he, hs]
